import Mathlib

/-!
Shallow embedding of `core/lib/zksync_core/src/api_server/execution_sandbox/mod.rs`:
the VM concurrency limiter / barrier / permit (admission control) and the
block-context resolution (`BlockStartInfo`, `BlockArgs`).

Database access (`zksync_dal`) is an external collaborator: it is modelled as a
record of response functions (`Storage`), exactly mirroring the storage calls
the source file makes.  The tokio counting semaphore backing the limiter is an
external library primitive; it is modelled as an explicit state
(`SemaphoreState`) with the documented tokio semantics that the source relies
on: `close` flips a monotone flag, a closed semaphore fails every `acquire`,
dropping a permit returns its unit to the count.
-/

set_option autoImplicit false

namespace ExecutionSandbox

/-! ## Block identifiers (zksync_types / api) -/

/-- `MiniblockNumber` is a `u32` newtype in the source; block numbers never
overflow in the code under consideration, so it is embedded as `Nat`. -/
abbrev MiniblockNumber := Nat

/-- `L1BatchNumber`, likewise embedded as `Nat`. -/
abbrev L1BatchNumber := Nat

/-- `api::BlockNumber`: a symbolic tag or an explicit number. -/
inductive BlockNumber where
  | Committed
  | Latest
  | Earliest
  | Pending
  | Number (n : Nat)
  deriving DecidableEq, Repr

/-- `api::BlockId`: a block reference, either by hash or by `BlockNumber`. -/
inductive BlockId where
  | Hash (h : Nat)
  | Number (bn : BlockNumber)
  deriving DecidableEq, Repr

/-- Applied-snapshot recovery marker, as returned by `snapshot_recovery_dal`. -/
structure SnapshotRecoveryStatus where
  miniblock_number : MiniblockNumber
  l1_batch_number : L1BatchNumber
  deriving DecidableEq, Repr

/-- The storage collaborator: one response function per DAL call the source
file makes.  `resolve_block_id` returns `none` when storage has no matching
block; `get_expected_l1_batch_timestamp` returns `none` when the timestamp is
absent. -/
structure Storage where
  get_applied_snapshot_status : Option SnapshotRecoveryStatus
  resolve_block_id : BlockId → Option MiniblockNumber
  resolve_l1_batch_number_of_miniblock : MiniblockNumber → L1BatchNumber
  get_expected_l1_batch_timestamp : L1BatchNumber → Option Nat

/-! ## BlockStartInfo -/

/-- Information about the first L1 batch / miniblock in the node storage
(`BlockStartInfo` in the source). -/
structure BlockStartInfo where
  first_miniblock : MiniblockNumber
  first_l1_batch : L1BatchNumber
  deriving DecidableEq, Repr

/-- `BlockStartInfo::new`: reads the applied-snapshot status; with no marker
both fields are `0`, with a marker each field is one past the recovered
point. -/
def BlockStartInfo.new (storage : Storage) : BlockStartInfo :=
  let snapshot_recovery := storage.get_applied_snapshot_status
  { first_miniblock :=
      match snapshot_recovery with
      | none => 0
      | some recovery => recovery.miniblock_number + 1
    first_l1_batch :=
      match snapshot_recovery with
      | none => 0
      | some recovery => recovery.l1_batch_number + 1 }

/-- `BlockStartInfo::ensure_not_pruned_block`: rejects an explicit number
below `first_miniblock`, and the `Earliest` tag whenever
`first_miniblock > 0`; everything else passes.  The `Err` payload is the
first non-pruned miniblock. -/
def BlockStartInfo.ensure_not_pruned_block (self : BlockStartInfo) (block : BlockId) :
    Except MiniblockNumber Unit :=
  match block with
  | BlockId.Number (BlockNumber.Number number) =>
      if number < self.first_miniblock then Except.error self.first_miniblock
      else Except.ok ()
  | BlockId.Number BlockNumber.Earliest =>
      if self.first_miniblock > 0 then Except.error self.first_miniblock
      else Except.ok ()
  | _ => Except.ok ()

/-! ## BlockArgs -/

/-- `BlockArgsError`: the three-way outcome taxonomy of block resolution.
`Database` carries the context message of the wrapped `anyhow` error and
plays the role of the spec's `InternalError`. -/
inductive BlockArgsError where
  | Pruned (first : MiniblockNumber)
  | Missing
  | Database (msg : String)
  deriving DecidableEq, Repr

/-- Information about a block provided to VM (`BlockArgs` in the source). -/
structure BlockArgs where
  block_id : BlockId
  resolved_block_number : MiniblockNumber
  l1_batch_timestamp_s : Option Nat
  deriving DecidableEq, Repr

/-- `get_pending_state`: resolves the `Pending` tag through storage; absence
of the pending block is a database-level error (`.context` in the source). -/
def get_pending_state (connection : Storage) :
    Except String (BlockId × MiniblockNumber) :=
  let block_id := BlockId.Number BlockNumber.Pending
  match connection.resolve_block_id block_id with
  | none => Except.error "pending block should always be present in Postgres"
  | some resolved_block_number => Except.ok (block_id, resolved_block_number)

/-- `BlockArgs::pending`: the pending shortcut; never carries a batch
timestamp. -/
def BlockArgs.pending (connection : Storage) : Except String BlockArgs :=
  match get_pending_state connection with
  | Except.error e => Except.error e
  | Except.ok (block_id, resolved_block_number) =>
      Except.ok
        { block_id := block_id
          resolved_block_number := resolved_block_number
          l1_batch_timestamp_s := none }

/-- `BlockArgs::new`: the block-context resolver.  Pruning guard first, then
the pending shortcut, then general resolution through storage (absence is
`Missing`), then the batch timestamp (absence is a `Database` error). -/
def BlockArgs.new (connection : Storage) (block_id : BlockId)
    (start_info : BlockStartInfo) : Except BlockArgsError BlockArgs :=
  match start_info.ensure_not_pruned_block block_id with
  | Except.error first => Except.error (BlockArgsError.Pruned first)
  | Except.ok () =>
      if block_id = BlockId.Number BlockNumber.Pending then
        match BlockArgs.pending connection with
        | Except.error msg => Except.error (BlockArgsError.Database msg)
        | Except.ok args => Except.ok args
      else
        match connection.resolve_block_id block_id with
        | none => Except.error BlockArgsError.Missing
        | some resolved_block_number =>
            let l1_batch :=
              connection.resolve_l1_batch_number_of_miniblock resolved_block_number
            match connection.get_expected_l1_batch_timestamp l1_batch with
            | none =>
                Except.error
                  (BlockArgsError.Database "missing timestamp for non-pending block")
            | some l1_batch_timestamp =>
                Except.ok
                  { block_id := block_id
                    resolved_block_number := resolved_block_number
                    l1_batch_timestamp_s := some l1_batch_timestamp }

/-- `BlockArgs::resolves_to_latest_sealed_miniblock`. -/
def BlockArgs.resolves_to_latest_sealed_miniblock (self : BlockArgs) : Bool :=
  match self.block_id with
  | BlockId.Number BlockNumber.Pending => true
  | BlockId.Number BlockNumber.Latest => true
  | BlockId.Number BlockNumber.Committed => true
  | _ => false

/-! ## VmConcurrencyLimiter / VmConcurrencyBarrier / VmPermit

The limiter and the barrier share one `tokio::sync::Semaphore`; its state is
the available-permit count plus a monotone closed flag.  The semantics the
source relies on: `Semaphore::close` sets the flag; `acquire_owned` on a
closed semaphore returns `Err` (surfaced by the source as `None`), otherwise
it takes a unit when one is available and suspends when none is; dropping an
`OwnedSemaphorePermit` adds its unit back, closed or not. -/

/-- State of the shared counting semaphore. -/
structure SemaphoreState where
  available_permits : Nat
  is_closed : Bool
  deriving DecidableEq, Repr

/-- Outcome of one `acquire` attempt: a permit is issued, the closed signal
(`None` in the source) is returned, or the caller suspends awaiting a unit. -/
inductive AcquireOutcome where
  | permit
  | closedSignal
  | suspend
  deriving DecidableEq, Repr

/-- What `Arc::clone(&self.limiter).acquire_owned().await.ok()` does on a
given semaphore state. -/
def acquireOutcome (s : SemaphoreState) : AcquireOutcome :=
  match s.is_closed, s.available_permits with
  | true, _ => AcquireOutcome.closedSignal
  | false, 0 => AcquireOutcome.suspend
  | false, _ + 1 => AcquireOutcome.permit

/-- `VmConcurrencyLimiter::acquire`: returns the outcome and the semaphore
state after the call (a successful acquisition consumes one unit). -/
def VmConcurrencyLimiter.acquire (s : SemaphoreState) :
    AcquireOutcome × SemaphoreState :=
  match acquireOutcome s with
  | AcquireOutcome.permit =>
      (AcquireOutcome.permit, { s with available_permits := s.available_permits - 1 })
  | o => (o, s)

/-- `VmConcurrencyBarrier::close`: `Semaphore::close` on the shared
semaphore. -/
def VmConcurrencyBarrier.close (s : SemaphoreState) : SemaphoreState :=
  { s with is_closed := true }

/-- Dropping an `OwnedSemaphorePermit` returns its unit to the semaphore. -/
def Semaphore.add_permit (s : SemaphoreState) : SemaphoreState :=
  { s with available_permits := s.available_permits + 1 }

/-- A `VmPermit` handle set sharing one `OwnedSemaphorePermit` through an
`Arc` (the source derives `Clone` for `VmPermit` and stores
`Arc<tokio::sync::OwnedSemaphorePermit>`): only the strong count is
relevant. -/
structure VmPermitState where
  strong_count : Nat
  deriving DecidableEq, Repr

/-- `Clone::clone` on a `VmPermit`: bumps the `Arc` strong count; no effect
on the semaphore. -/
def VmPermit.clone (p : VmPermitState) : VmPermitState :=
  { strong_count := p.strong_count + 1 }

/-- Dropping one `VmPermit` handle: the inner `OwnedSemaphorePermit` is
dropped (returning the unit) exactly when this was the last `Arc` clone. -/
def VmPermit.drop (p : VmPermitState) (s : SemaphoreState) :
    VmPermitState × SemaphoreState :=
  if p.strong_count ≤ 1 then
    ({ strong_count := 0 }, Semaphore.add_permit s)
  else
    ({ strong_count := p.strong_count - 1 }, s)

/-- Dropping `k` handles in sequence. -/
def VmPermit.dropN : Nat → VmPermitState → SemaphoreState →
    VmPermitState × SemaphoreState
  | 0, p, s => (p, s)
  | k + 1, p, s =>
      let ps := VmPermit.drop p s
      VmPermit.dropN k ps.fst ps.snd

/-- `POLL_INTERVAL` of `wait_until_stopped`, in milliseconds. -/
def VmConcurrencyBarrier.POLL_INTERVAL_MS : Nat := 50

/-- Outcome of `wait_until_stopped` run against a finite trace of observed
available-permit counts. -/
inductive WaitOutcome where
  | panicked (msg : String)
  | returned (polls : Nat)
  | stillWaiting
  deriving DecidableEq, Repr

/-- Index of the first sample equal to `max_concurrency` (the poll at which
the drain loop exits). -/
def drainIndex (max_concurrency : Nat) : List Nat → Option Nat
  | [] => none
  | a :: rest =>
      if a = max_concurrency then some 0
      else Option.map (· + 1) (drainIndex max_concurrency rest)

/-- `VmConcurrencyBarrier::wait_until_stopped`, run against the trace
`samples` of available-permit counts observed at successive polls: asserts
the semaphore is closed, then loops sleeping `POLL_INTERVAL` until the
available count equals `max_concurrency`. -/
def VmConcurrencyBarrier.wait_until_stopped (is_closed : Bool)
    (max_concurrency : Nat) (samples : List Nat) : WaitOutcome :=
  match is_closed with
  | false => WaitOutcome.panicked "Cannot wait on non-closed VM concurrency limiter"
  | true =>
      match drainIndex max_concurrency samples with
      | some k => WaitOutcome.returned k
      | none => WaitOutcome.stillWaiting

/-! ## Concrete storages used by witnesses -/

/-- A storage that answers every query negatively (fresh node, nothing
resolvable). -/
def storageEmpty : Storage :=
  { get_applied_snapshot_status := none
    resolve_block_id := fun _ => none
    resolve_l1_batch_number_of_miniblock := fun _ => 0
    get_expected_l1_batch_timestamp := fun _ => none }

/-- A storage holding exactly the genesis block in batch 0 with timestamp
1000. -/
def storageGenesis : Storage :=
  { get_applied_snapshot_status := none
    resolve_block_id := fun _ => some 0
    resolve_l1_batch_number_of_miniblock := fun _ => 0
    get_expected_l1_batch_timestamp := fun _ => some 1000 }

/-- Like `storageGenesis`, but the batch timestamp is absent (the internal
inconsistency of step 4). -/
def storageNoTimestamp : Storage :=
  { storageGenesis with get_expected_l1_batch_timestamp := fun _ => none }

/-! ## Shared lemmas -/

/-- Once the pruning guard passes, `BlockArgs::new` can no longer produce
`Pruned`: all later outcomes are `ok`, `Missing`, or `Database`. -/
theorem new_ne_pruned_of_guard_ok (connection : Storage) (bid : BlockId)
    (info : BlockStartInfo)
    (hok : info.ensure_not_pruned_block bid = Except.ok ())
    (m : MiniblockNumber) :
    BlockArgs.new connection bid info ≠ Except.error (BlockArgsError.Pruned m) := by
  unfold BlockArgs.new
  rw [hok]
  by_cases hp : bid = BlockId.Number BlockNumber.Pending
  · simp only [hp, if_pos rfl]
    cases BlockArgs.pending connection <;> simp
  · simp only [if_neg hp]
    cases connection.resolve_block_id bid with
    | none => simp
    | some n =>
        cases hts : connection.get_expected_l1_batch_timestamp
            (connection.resolve_l1_batch_number_of_miniblock n) <;> simp [hts]

/-- C8: `BlockStartInfo::new` yields `(0, 0)` with no recovery marker, and
one past the recovered point in both components with a marker. -/
theorem block_start_info_load_spec (storage : Storage) :
    (storage.get_applied_snapshot_status = none →
      BlockStartInfo.new storage = { first_miniblock := 0, first_l1_batch := 0 }) ∧
    (∀ recovery, storage.get_applied_snapshot_status = some recovery →
      BlockStartInfo.new storage =
        { first_miniblock := recovery.miniblock_number + 1
          first_l1_batch := recovery.l1_batch_number + 1 }) := by
  constructor
  · intro h
    simp [BlockStartInfo.new, h]
  · intro recovery h
    simp [BlockStartInfo.new, h]

/-- Witness for C8 at a concrete storage with no recovery marker. -/
theorem block_start_info_load_spec_witness :
    BlockStartInfo.new storageEmpty = { first_miniblock := 0, first_l1_batch := 0 } :=
  (block_start_info_load_spec storageEmpty).1 rfl

/-- C1: the pruning guard of `resolve_block` — an explicit number below
`first_miniblock` yields `Pruned(first_miniblock)`; `Earliest` yields
`Pruned(first_miniblock)` exactly when `first_miniblock > 0`, and with
`first_miniblock = 0` it passes the guard and is never `Pruned`. -/
theorem pruning_guard_spec (info : BlockStartInfo) (connection : Storage) :
    (∀ n : Nat, n < info.first_miniblock →
      BlockArgs.new connection (BlockId.Number (BlockNumber.Number n)) info =
        Except.error (BlockArgsError.Pruned info.first_miniblock)) ∧
    (0 < info.first_miniblock →
      BlockArgs.new connection (BlockId.Number BlockNumber.Earliest) info =
        Except.error (BlockArgsError.Pruned info.first_miniblock)) ∧
    (info.first_miniblock = 0 →
      info.ensure_not_pruned_block (BlockId.Number BlockNumber.Earliest) =
        Except.ok () ∧
      ∀ m, BlockArgs.new connection (BlockId.Number BlockNumber.Earliest) info ≠
        Except.error (BlockArgsError.Pruned m)) := by
  refine ⟨?_, ?_, ?_⟩
  · intro n hn
    simp [BlockArgs.new, BlockStartInfo.ensure_not_pruned_block, hn]
  · intro hpos
    simp [BlockArgs.new, BlockStartInfo.ensure_not_pruned_block, hpos]
  · intro h0
    have hok : info.ensure_not_pruned_block (BlockId.Number BlockNumber.Earliest) =
        Except.ok () := by
      simp [BlockStartInfo.ensure_not_pruned_block, h0]
    exact ⟨hok, fun m => new_ne_pruned_of_guard_ok connection _ info hok m⟩

/-- Witness for C1: explicit number 5 against `first_miniblock = 10` is
`Pruned 10` (the spec's worked example). -/
theorem pruning_guard_spec_witness :
    BlockArgs.new storageEmpty (BlockId.Number (BlockNumber.Number 5))
        { first_miniblock := 10, first_l1_batch := 3 } =
      Except.error (BlockArgsError.Pruned 10) :=
  (pruning_guard_spec { first_miniblock := 10, first_l1_batch := 3 } storageEmpty).1
    5 (by decide)

/-- C10: hash, `Latest`, `Committed` and `Pending` references always pass the
pruning guard, and `BlockArgs::new` never returns `Pruned` for them, whatever
the retention info. -/
theorem unguarded_shapes_never_pruned (info : BlockStartInfo) (connection : Storage) :
    (∀ h : Nat, info.ensure_not_pruned_block (BlockId.Hash h) = Except.ok ()) ∧
    info.ensure_not_pruned_block (BlockId.Number BlockNumber.Latest) = Except.ok () ∧
    info.ensure_not_pruned_block (BlockId.Number BlockNumber.Committed) = Except.ok () ∧
    info.ensure_not_pruned_block (BlockId.Number BlockNumber.Pending) = Except.ok () ∧
    (∀ (h : Nat) (m : MiniblockNumber),
      BlockArgs.new connection (BlockId.Hash h) info ≠
        Except.error (BlockArgsError.Pruned m)) ∧
    (∀ m, BlockArgs.new connection (BlockId.Number BlockNumber.Latest) info ≠
        Except.error (BlockArgsError.Pruned m)) ∧
    (∀ m, BlockArgs.new connection (BlockId.Number BlockNumber.Committed) info ≠
        Except.error (BlockArgsError.Pruned m)) ∧
    (∀ m, BlockArgs.new connection (BlockId.Number BlockNumber.Pending) info ≠
        Except.error (BlockArgsError.Pruned m)) := by
  have hHash : ∀ h : Nat,
      info.ensure_not_pruned_block (BlockId.Hash h) = Except.ok () := by
    intro h; simp [BlockStartInfo.ensure_not_pruned_block]
  have hLatest : info.ensure_not_pruned_block (BlockId.Number BlockNumber.Latest) =
      Except.ok () := by simp [BlockStartInfo.ensure_not_pruned_block]
  have hCommitted :
      info.ensure_not_pruned_block (BlockId.Number BlockNumber.Committed) =
        Except.ok () := by simp [BlockStartInfo.ensure_not_pruned_block]
  have hPending :
      info.ensure_not_pruned_block (BlockId.Number BlockNumber.Pending) =
        Except.ok () := by simp [BlockStartInfo.ensure_not_pruned_block]
  exact ⟨hHash, hLatest, hCommitted, hPending,
    fun h m => new_ne_pruned_of_guard_ok connection _ info (hHash h) m,
    fun m => new_ne_pruned_of_guard_ok connection _ info hLatest m,
    fun m => new_ne_pruned_of_guard_ok connection _ info hCommitted m,
    fun m => new_ne_pruned_of_guard_ok connection _ info hPending m⟩

/-- Witness for C10: a `Latest` reference with retention boundary 7 is not
rejected as pruned. -/
theorem unguarded_shapes_never_pruned_witness :
    BlockArgs.new storageEmpty (BlockId.Number BlockNumber.Latest)
        { first_miniblock := 7, first_l1_batch := 2 } ≠
      Except.error (BlockArgsError.Pruned 7) :=
  (unguarded_shapes_never_pruned { first_miniblock := 7, first_l1_batch := 2 }
    storageEmpty).2.2.2.2.2.1 7

/-- C9: `wait_until_stopped` on a non-closed limiter panics with the
assertion message, for every capacity and every trace — it never polls or
silently proceeds. -/
theorem wait_until_stopped_nonclosed_panics (max_concurrency : Nat)
    (samples : List Nat) :
    VmConcurrencyBarrier.wait_until_stopped false max_concurrency samples =
      WaitOutcome.panicked "Cannot wait on non-closed VM concurrency limiter" :=
  rfl

/-- `BlockArgs.pending` written as a single match on the storage answer for
the pending tag. -/
theorem pending_eq (connection : Storage) :
    BlockArgs.pending connection =
      match connection.resolve_block_id (BlockId.Number BlockNumber.Pending) with
      | none => Except.error "pending block should always be present in Postgres"
      | some n =>
          Except.ok
            { block_id := BlockId.Number BlockNumber.Pending
              resolved_block_number := n
              l1_batch_timestamp_s := none } := by
  unfold BlockArgs.pending get_pending_state
  cases h : connection.resolve_block_id (BlockId.Number BlockNumber.Pending) <;>
    simp [h]

/-- Every successful `BlockArgs.pending` result has the pending block id and
no batch timestamp. -/
theorem pending_timestamp_none (connection : Storage) (a : BlockArgs)
    (h : BlockArgs.pending connection = Except.ok a) :
    a.block_id = BlockId.Number BlockNumber.Pending ∧
      a.l1_batch_timestamp_s = none := by
  rw [pending_eq] at h
  cases hres : connection.resolve_block_id (BlockId.Number BlockNumber.Pending) with
  | none => rw [hres] at h; exact absurd h (by simp)
  | some n =>
      rw [hres] at h
      have ha := Except.ok.inj h
      subst ha
      exact ⟨rfl, rfl⟩

/-- C5: a non-pending reference that passes the pruning guard but does not
resolve in storage yields `Missing`, an outcome distinct from every `Pruned`
and every `Database` outcome. -/
theorem resolve_block_missing_spec (connection : Storage) (bid : BlockId)
    (info : BlockStartInfo)
    (hok : info.ensure_not_pruned_block bid = Except.ok ())
    (hnp : bid ≠ BlockId.Number BlockNumber.Pending)
    (hmiss : connection.resolve_block_id bid = none) :
    BlockArgs.new connection bid info = Except.error BlockArgsError.Missing ∧
    (∀ m, BlockArgsError.Missing ≠ BlockArgsError.Pruned m) ∧
    (∀ msg, BlockArgsError.Missing ≠ BlockArgsError.Database msg) := by
  refine ⟨?_, fun m => by simp, fun msg => by simp⟩
  unfold BlockArgs.new
  rw [hok]
  simp [if_neg hnp, hmiss]

/-- Witness for C5: explicit block 7 absent from an empty storage is
`Missing`. -/
theorem resolve_block_missing_spec_witness :
    BlockArgs.new storageEmpty (BlockId.Number (BlockNumber.Number 7))
        { first_miniblock := 0, first_l1_batch := 0 } =
      Except.error BlockArgsError.Missing :=
  (resolve_block_missing_spec storageEmpty (BlockId.Number (BlockNumber.Number 7))
    { first_miniblock := 0, first_l1_batch := 0 } rfl (by decide) rfl).1

/-- C6: a non-pending reference that resolves to a concrete block whose batch
has no expected sealing timestamp yields the `Database` (internal-error)
outcome, distinct from `Pruned` and from `Missing`. -/
theorem resolve_block_internal_error_spec (connection : Storage) (bid : BlockId)
    (info : BlockStartInfo) (n : MiniblockNumber)
    (hok : info.ensure_not_pruned_block bid = Except.ok ())
    (hnp : bid ≠ BlockId.Number BlockNumber.Pending)
    (hres : connection.resolve_block_id bid = some n)
    (hts : connection.get_expected_l1_batch_timestamp
        (connection.resolve_l1_batch_number_of_miniblock n) = none) :
    BlockArgs.new connection bid info =
      Except.error (BlockArgsError.Database "missing timestamp for non-pending block") ∧
    (∀ m, BlockArgsError.Database "missing timestamp for non-pending block" ≠
        BlockArgsError.Pruned m) ∧
    BlockArgsError.Database "missing timestamp for non-pending block" ≠
      BlockArgsError.Missing := by
  refine ⟨?_, fun m => by simp, by simp⟩
  unfold BlockArgs.new
  rw [hok]
  simp [if_neg hnp, hres, hts]

/-- Witness for C6: block 0 resolves but its batch timestamp is absent, so
the result is the internal `Database` error. -/
theorem resolve_block_internal_error_spec_witness :
    BlockArgs.new storageNoTimestamp (BlockId.Number (BlockNumber.Number 0))
        { first_miniblock := 0, first_l1_batch := 0 } =
      Except.error (BlockArgsError.Database "missing timestamp for non-pending block") :=
  (resolve_block_internal_error_spec storageNoTimestamp
    (BlockId.Number (BlockNumber.Number 0))
    { first_miniblock := 0, first_l1_batch := 0 } 0 rfl (by decide) rfl rfl).1

/-- C7: in every successful resolution the batch timestamp is absent exactly
when the reference is the pending tag; every successful `BlockArgs.pending`
result carries no timestamp, and `BlockArgs.pending` succeeds as soon as
storage resolves the pending tag. -/
theorem batch_timestamp_absent_iff_pending (connection : Storage) (bid : BlockId)
    (info : BlockStartInfo) :
    (∀ args, BlockArgs.new connection bid info = Except.ok args →
      args.block_id = bid ∧
      (args.l1_batch_timestamp_s = none ↔ bid = BlockId.Number BlockNumber.Pending)) ∧
    (∀ args, BlockArgs.pending connection = Except.ok args →
      args.l1_batch_timestamp_s = none) ∧
    (∀ n, connection.resolve_block_id (BlockId.Number BlockNumber.Pending) = some n →
      BlockArgs.pending connection =
        Except.ok
          { block_id := BlockId.Number BlockNumber.Pending
            resolved_block_number := n
            l1_batch_timestamp_s := none }) := by
  refine ⟨?_, fun args h => (pending_timestamp_none connection args h).2, ?_⟩
  · intro args hargs
    unfold BlockArgs.new at hargs
    cases hguard : info.ensure_not_pruned_block bid with
    | error first => rw [hguard] at hargs; exact absurd hargs (by simp)
    | ok u =>
        cases u
        rw [hguard] at hargs
        by_cases hp : bid = BlockId.Number BlockNumber.Pending
        · rw [if_pos hp] at hargs
          cases hpend : BlockArgs.pending connection with
          | error e => rw [hpend] at hargs; exact absurd hargs (by simp)
          | ok a =>
              rw [hpend] at hargs
              have ha := Except.ok.inj hargs
              subst ha
              obtain ⟨hid, hts⟩ := pending_timestamp_none connection a hpend
              exact ⟨hid.trans hp.symm, by simp [hts, hp]⟩
        · rw [if_neg hp] at hargs
          cases hres : connection.resolve_block_id bid with
          | none => simp only [hres] at hargs; exact absurd hargs (by simp)
          | some n =>
              simp only [hres] at hargs
              cases hts : connection.get_expected_l1_batch_timestamp
                  (connection.resolve_l1_batch_number_of_miniblock n) with
              | none => simp only [hts] at hargs; exact absurd hargs (by simp)
              | some t =>
                  simp only [hts] at hargs
                  have ha := Except.ok.inj hargs
                  subst ha
                  exact ⟨rfl, by simp [hp]⟩
  · intro n hres
    rw [pending_eq, hres]

/-- Witness for C7: against genesis storage the pending tag resolves to a
context with no batch timestamp. -/
theorem batch_timestamp_absent_iff_pending_witness :
    BlockArgs.pending storageGenesis =
      Except.ok
        { block_id := BlockId.Number BlockNumber.Pending
          resolved_block_number := 0
          l1_batch_timestamp_s := none } :=
  (batch_timestamp_absent_iff_pending storageGenesis
    (BlockId.Number BlockNumber.Pending)
    { first_miniblock := 0, first_l1_batch := 0 }).2.2 0 rfl

/-- C2: `acquire` returns the closed signal iff the limiter is closed; while
open it hands out a permit when a unit is available, suspends when none is
(resuming with a permit once a unit is released), and after `close` every
pending and subsequent `acquire` returns the closed signal, whatever the
number of outstanding permits. -/
theorem acquire_closed_iff (s : SemaphoreState) :
    ((VmConcurrencyLimiter.acquire s).fst = AcquireOutcome.closedSignal ↔
      s.is_closed = true) ∧
    (s.is_closed = false → 0 < s.available_permits →
      (VmConcurrencyLimiter.acquire s).fst = AcquireOutcome.permit) ∧
    (s.is_closed = false → s.available_permits = 0 →
      (VmConcurrencyLimiter.acquire s).fst = AcquireOutcome.suspend ∧
      (VmConcurrencyLimiter.acquire (Semaphore.add_permit s)).fst =
        AcquireOutcome.permit) ∧
    (VmConcurrencyLimiter.acquire (VmConcurrencyBarrier.close s)).fst =
      AcquireOutcome.closedSignal := by
  obtain ⟨a, c⟩ := s
  cases c <;> cases a <;>
    simp [VmConcurrencyLimiter.acquire, acquireOutcome, Semaphore.add_permit,
      VmConcurrencyBarrier.close]

/-- Witness for C2: an open semaphore with no free unit suspends the
acquirer. -/
theorem acquire_closed_iff_witness :
    (VmConcurrencyLimiter.acquire
        { available_permits := 0, is_closed := false }).fst =
      AcquireOutcome.suspend :=
  ((acquire_closed_iff { available_permits := 0, is_closed := false }).2.2.1
    rfl rfl).1

/-- A `some` answer of `drainIndex` is the index of the first sample equal to
the capacity. -/
theorem drainIndex_spec (m : Nat) :
    ∀ (samples : List Nat) (k : Nat), drainIndex m samples = some k →
      samples.get? k = some m ∧
      ∀ j, j < k → samples.get? j ≠ some m := by
  intro samples
  induction samples with
  | nil => intro k h; simp [drainIndex] at h
  | cons a rest ih =>
      intro k h
      by_cases ha : a = m
      · rw [drainIndex, if_pos ha] at h
        have hk := Option.some.inj h
        subst hk
        exact ⟨by simp [ha], fun j hj => absurd hj (Nat.not_lt_zero j)⟩
      · rw [drainIndex, if_neg ha] at h
        cases hrest : drainIndex m rest with
        | none => rw [hrest] at h; exact absurd h (by simp)
        | some k0 =>
            rw [hrest] at h
            have hk := Option.some.inj h
            subst hk
            obtain ⟨h1, h2⟩ := ih k0 hrest
            refine ⟨by simpa using h1, ?_⟩
            intro j hj
            cases j with
            | zero => simp [ha]
            | succ j0 =>
                have hj0 : j0 < k0 := Nat.lt_of_succ_lt_succ (by simpa using hj)
                simpa using h2 j0 hj0

/-- `drainIndex` answers `none` exactly on traces where no sample reaches the
capacity. -/
theorem drainIndex_eq_none (m : Nat) (samples : List Nat) :
    drainIndex m samples = none ↔ ∀ j ∈ samples, j ≠ m := by
  induction samples with
  | nil => simp [drainIndex]
  | cons a rest ih =>
      by_cases ha : a = m
      · subst ha
        rw [drainIndex, if_pos rfl]
        constructor
        · intro h; exact absurd h (by simp)
        · intro h; exact absurd rfl (h a (List.mem_cons_self a rest))
      · rw [drainIndex, if_neg ha]
        rw [Option.map_eq_none']
        constructor
        · intro h j hj
          rcases List.mem_cons.mp hj with rfl | hjr
          · exact ha
          · exact ih.mp h j hjr
        · intro h
          exact ih.mpr fun j hj => h j (List.mem_cons_of_mem a hj)

/-- C3: with the limiter closed, `wait_until_stopped` returns exactly at the
first poll at which the available count equals the capacity — i.e. only once
every issued permit has been returned — and on a trace where the count never
reaches capacity it is still polling; the fixed poll interval is 50 ms. -/
theorem wait_until_stopped_drain_spec (max_concurrency : Nat)
    (samples : List Nat) :
    (∀ k, VmConcurrencyBarrier.wait_until_stopped true max_concurrency samples =
        WaitOutcome.returned k →
      samples.get? k = some max_concurrency ∧
      ∀ j, j < k → samples.get? j ≠ some max_concurrency) ∧
    ((∀ j ∈ samples, j ≠ max_concurrency) →
      VmConcurrencyBarrier.wait_until_stopped true max_concurrency samples =
        WaitOutcome.stillWaiting) ∧
    VmConcurrencyBarrier.POLL_INTERVAL_MS = 50 := by
  refine ⟨?_, ?_, rfl⟩
  · intro k h
    unfold VmConcurrencyBarrier.wait_until_stopped at h
    cases hd : drainIndex max_concurrency samples with
    | none => rw [hd] at h; exact absurd h (by simp)
    | some k0 =>
        rw [hd] at h
        have hk := WaitOutcome.returned.inj h
        subst hk
        exact drainIndex_spec max_concurrency samples k0 hd
  · intro h
    unfold VmConcurrencyBarrier.wait_until_stopped
    rw [(drainIndex_eq_none max_concurrency samples).mpr h]

/-- Witness for C3: capacity 5 against the trace `[3, 5]` returns at poll 1,
where the sample equals the capacity. -/
theorem wait_until_stopped_drain_spec_witness :
    [3, 5].get? 1 = some 5 :=
  ((wait_until_stopped_drain_spec 5 [3, 5]).1 1 rfl).1

/-- Dropping all `n ≥ 1` handles of a shared permit returns exactly one unit
to the semaphore. -/
theorem dropN_all : ∀ n : Nat, 1 ≤ n → ∀ s : SemaphoreState,
    VmPermit.dropN n { strong_count := n } s =
      ({ strong_count := 0 }, Semaphore.add_permit s) := by
  intro n
  induction n with
  | zero => intro h; exact absurd h (by omega)
  | succ k ih =>
      intro _ s
      by_cases hk : k = 0
      · subst hk
        simp [VmPermit.dropN, VmPermit.drop]
      · have hk1 : 1 ≤ k := Nat.one_le_iff_ne_zero.mpr hk
        have hdrop : VmPermit.drop { strong_count := k + 1 } s =
            ({ strong_count := k }, s) := by
          unfold VmPermit.drop
          rw [if_neg (show ¬ k + 1 ≤ 1 by omega)]
          rfl
        show VmPermit.dropN k (VmPermit.drop { strong_count := k + 1 } s).fst
            (VmPermit.drop { strong_count := k + 1 } s).snd =
          ({ strong_count := 0 }, Semaphore.add_permit s)
        rw [hdrop]
        exact ih hk1 s

/-- C4 counterexample: `VmPermit` derives `Clone` and shares its inner
`OwnedSemaphorePermit` through an `Arc`.  After cloning a permit handle once,
dropping one of the two handles returns nothing to the semaphore: the
available count stays at 5 instead of becoming 6, so a drop does not return
the unit on every exit path, and the handle is not exclusively owned. -/
theorem vmpermit_clone_drop_counterexample :
    VmPermit.clone { strong_count := 1 } = { strong_count := 2 } ∧
    (VmPermit.drop { strong_count := 2 }
        { available_permits := 5, is_closed := false }).snd =
      { available_permits := 5, is_closed := false } ∧
    ¬ (VmPermit.drop { strong_count := 2 }
        { available_permits := 5, is_closed := false }).snd.available_permits
        = 5 + 1 :=
  ⟨rfl, rfl, by decide⟩

/-- C4 amended: the semaphore unit behind a `VmPermit` is shared among the
permit's clones through an `Arc`; dropping a non-last clone leaves the
semaphore unchanged, and dropping all handles returns the unit to the shared
resource exactly once — the net effect of the whole drop sequence is exactly
one returned unit. -/
theorem vmpermit_release_exactly_once (p : VmPermitState) (s : SemaphoreState)
    (h : 1 ≤ p.strong_count) :
    (2 ≤ p.strong_count → (VmPermit.drop p s).snd = s) ∧
    VmPermit.dropN p.strong_count p s =
      ({ strong_count := 0 }, Semaphore.add_permit s) := by
  obtain ⟨n⟩ := p
  refine ⟨?_, dropN_all n h s⟩
  intro h2
  have h2n : 2 ≤ n := h2
  unfold VmPermit.drop
  rw [if_neg (show ¬ n ≤ 1 by omega)]

/-- Witness for C4 (amended): dropping both handles of a twice-referenced
permit returns exactly one unit, 4 becoming 5. -/
theorem vmpermit_release_exactly_once_witness :
    VmPermit.dropN 2 { strong_count := 2 }
        { available_permits := 4, is_closed := true } =
      ({ strong_count := 0 }, { available_permits := 5, is_closed := true }) :=
  (vmpermit_release_exactly_once { strong_count := 2 }
    { available_permits := 4, is_closed := true } (by decide)).2

end ExecutionSandbox
